import Mathlib

/-!
Verification development for the head-tracking off-axis projection repository.

The JavaScript sources are shallowly embedded over the rationals:
pure functions become Lean functions, class instances become explicit
state records threaded through the methods, and JavaScript numbers are
modelled as exact rationals.  The irrational primitives of the JS
standard library are handled explicitly where they occur:
Math.sqrt is abstracted as an oracle parameter (only the generalized
projection uses it), and Math.PI is a fixed rational constant (its
exact value is never load-bearing for any theorem below).
-/

/-- Plain 3-component vector, mirroring the Vec3 typedef of
KooimaProjection.js (components are JS numbers, modelled as rationals). -/
structure Vec3 where
  x : ℚ
  y : ℚ
  z : ℚ
deriving DecidableEq

/-- ScreenGeometry typedef of KooimaProjection.js: physical screen size in mm. -/
structure ScreenGeometry where
  width : ℚ
  height : ℚ
deriving DecidableEq

/-- FrustumParams typedef of KooimaProjection.js. -/
structure FrustumParams where
  left : ℚ
  right : ℚ
  top : ℚ
  bottom : ℚ
  near : ℚ
  far : ℚ
deriving DecidableEq

/-- Embedding of calculateOffAxisFrustum from KooimaProjection.js.
The source recurses once with z nudged to 1 when the perpendicular
distance d = eyePos.z is nonpositive; the nudged call always takes the
non-recursive branch, so the function is total (proved by the
termination measure below, which mirrors that observation). -/
def calculateOffAxisFrustum (eyePos : Vec3) (screen : ScreenGeometry)
    (near far : ℚ) : FrustumParams :=
  -- screen corners: pa = lower-left, pb = lower-right, pc = upper-left, all at z = 0;
  -- d = -va_z where va_z = pa_z - eyePos.z = 0 - eyePos.z (perpendicular distance
  -- from eye to screen plane); the guard is written with d expanded so the
  -- termination argument can see it.
  if _h : -(0 - eyePos.z) ≤ 0 then
    -- fall back to a small positive distance (source nudges z to 1)
    calculateOffAxisFrustum ⟨eyePos.x, eyePos.y, 1⟩ screen near far
  else
    let halfW := screen.width / 2
    let halfH := screen.height / 2
    let va_x := -halfW - eyePos.x
    let va_y := -halfH - eyePos.y
    let va_z := 0 - eyePos.z
    let vb_x := halfW - eyePos.x
    let vc_y := halfH - eyePos.y
    let d := -va_z
    let k := near / d
    { left := va_x * k, right := vb_x * k, top := vc_y * k,
      bottom := va_y * k, near := near, far := far }
termination_by (if eyePos.z ≤ 0 then 1 else 0 : Nat)
decreasing_by
  have hz : eyePos.z ≤ 0 := by linarith
  simp [hz]

/-- Fuel-indexed variant of the same recursion, used to reason about the
recursion depth of calculateOffAxisFrustum: fuel n allows the initial
call plus n - 1 retries; none means the fuel was exhausted. -/
def calculateOffAxisFrustumFuel : ℕ → Vec3 → ScreenGeometry → ℚ → ℚ →
    Option FrustumParams
  | 0, _, _, _, _ => none
  | Nat.succ fuel, eyePos, screen, near, far =>
    let halfW := screen.width / 2
    let halfH := screen.height / 2
    let va_x := -halfW - eyePos.x
    let va_y := -halfH - eyePos.y
    let va_z := 0 - eyePos.z
    let vb_x := halfW - eyePos.x
    let vc_y := halfH - eyePos.y
    let d := -va_z
    if d ≤ 0 then
      calculateOffAxisFrustumFuel fuel ⟨eyePos.x, eyePos.y, 1⟩ screen near far
    else
      let k := near / d
      some { left := va_x * k, right := vb_x * k, top := vc_y * k,
             bottom := va_y * k, near := near, far := far }

/-- Helper: with the eye strictly in front of the screen the solver takes
the direct branch and the extents follow the Kooima formulas. -/
lemma calculateOffAxisFrustum_of_pos (eyePos : Vec3) (screen : ScreenGeometry)
    (near far : ℚ) (hz : 0 < eyePos.z) :
    calculateOffAxisFrustum eyePos screen near far =
      { left := (-(screen.width / 2) - eyePos.x) * (near / eyePos.z),
        right := (screen.width / 2 - eyePos.x) * (near / eyePos.z),
        top := (screen.height / 2 - eyePos.y) * (near / eyePos.z),
        bottom := (-(screen.height / 2) - eyePos.y) * (near / eyePos.z),
        near := near, far := far } := by
  rw [calculateOffAxisFrustum.eq_def]
  have hd : ¬ (-(0 - eyePos.z) ≤ 0) := by linarith
  simp only [hd, dif_neg]
  norm_num

/-- Helper: with the eye on or behind the screen plane the solver recurses
once with z nudged to 1. -/
lemma calculateOffAxisFrustum_of_nonpos (eyePos : Vec3) (screen : ScreenGeometry)
    (near far : ℚ) (hz : eyePos.z ≤ 0) :
    calculateOffAxisFrustum eyePos screen near far =
      calculateOffAxisFrustum ⟨eyePos.x, eyePos.y, 1⟩ screen near far := by
  rw [calculateOffAxisFrustum.eq_def]
  have hd : -(0 - eyePos.z) ≤ 0 := by linarith
  simp only [hd, dif_pos]

/-- Claim C1, counterexample: with screen 344 by 215 mm, near = 1,
far = 10000 and eye (0, 0, 600), the solver's left extent is not -172:
the half-extent 172 is scaled by k = near / d = 1 / 600. -/
theorem C1_frustum_example_counterexample :
    (calculateOffAxisFrustum ⟨0, 0, 600⟩ ⟨344, 215⟩ 1 10000).left ≠ -172 := by
  rw [calculateOffAxisFrustum_of_pos _ _ _ _ (by norm_num)]
  norm_num

/-- Claim C1 as amended: with screen 344 by 215 mm, near = 1, far = 10000
and eye (0, 0, 600), the solver returns the half-extents scaled by
k = 1 / 600, that is left = -172/600 = -43/150, right = 43/150,
bottom = -107.5/600 = -43/240, top = 43/240, with near and far passed
through. -/
theorem C1_frustum_example :
    calculateOffAxisFrustum ⟨0, 0, 600⟩ ⟨344, 215⟩ 1 10000 =
      { left := -43/150, right := 43/150, top := 43/240, bottom := -43/240,
        near := 1, far := 10000 } := by
  rw [calculateOffAxisFrustum_of_pos _ _ _ _ (by norm_num)]
  norm_num

/-- Claim C2: for every eye position with positive z, every screen geometry
with positive width and height, and every near and far, the solver returns
the Kooima extents (-halfW - eye.x) * near/eye.z and so on, with near and
far passed through unchanged. -/
theorem C2_frustum_formula (eyePos : Vec3) (screen : ScreenGeometry)
    (near far : ℚ) (hw : 0 < screen.width) (hh : 0 < screen.height)
    (hz : 0 < eyePos.z) :
    calculateOffAxisFrustum eyePos screen near far =
      { left := (-(screen.width / 2) - eyePos.x) * (near / eyePos.z),
        right := (screen.width / 2 - eyePos.x) * (near / eyePos.z),
        top := (screen.height / 2 - eyePos.y) * (near / eyePos.z),
        bottom := (-(screen.height / 2) - eyePos.y) * (near / eyePos.z),
        near := near, far := far } :=
  calculateOffAxisFrustum_of_pos eyePos screen near far hz

/-- Witness for C2 at a concrete off-centre eye position. -/
theorem C2_frustum_formula_witness :
    0 < (344 : ℚ) ∧ 0 < (215 : ℚ) ∧ 0 < (600 : ℚ) ∧
    calculateOffAxisFrustum ⟨2, 3, 600⟩ ⟨344, 215⟩ 1 10000 =
      { left := (-(344 / 2) - 2) * (1 / 600), right := (344 / 2 - 2) * (1 / 600),
        top := (215 / 2 - 3) * (1 / 600), bottom := (-(215 / 2) - 3) * (1 / 600),
        near := 1, far := 10000 } :=
  ⟨by norm_num, by norm_num, by norm_num,
   C2_frustum_formula ⟨2, 3, 600⟩ ⟨344, 215⟩ 1 10000 (by norm_num) (by norm_num)
     (by norm_num)⟩

/-- Claim C3: for every screen geometry and positive near, far and D, the
frustum for a centred eye (0, 0, D) is symmetric: left equals -right and
bottom equals -top (exactly, in the rational model). -/
theorem C3_centered_symmetry (screen : ScreenGeometry) (near far D : ℚ)
    (hn : 0 < near) (hf : 0 < far) (hD : 0 < D) :
    (calculateOffAxisFrustum ⟨0, 0, D⟩ screen near far).left
        = -(calculateOffAxisFrustum ⟨0, 0, D⟩ screen near far).right
    ∧ (calculateOffAxisFrustum ⟨0, 0, D⟩ screen near far).bottom
        = -(calculateOffAxisFrustum ⟨0, 0, D⟩ screen near far).top := by
  rw [calculateOffAxisFrustum_of_pos _ _ _ _ (by simpa using hD)]
  constructor <;> · simp; try ring

/-- Witness for C3 at a concrete screen and distance. -/
theorem C3_centered_symmetry_witness :
    0 < (1 : ℚ) ∧ 0 < (10000 : ℚ) ∧ 0 < (600 : ℚ) ∧
    ((calculateOffAxisFrustum ⟨0, 0, 600⟩ ⟨344, 215⟩ 1 10000).left
        = -(calculateOffAxisFrustum ⟨0, 0, 600⟩ ⟨344, 215⟩ 1 10000).right
     ∧ (calculateOffAxisFrustum ⟨0, 0, 600⟩ ⟨344, 215⟩ 1 10000).bottom
        = -(calculateOffAxisFrustum ⟨0, 0, 600⟩ ⟨344, 215⟩ 1 10000).top) :=
  ⟨by norm_num, by norm_num, by norm_num,
   C3_centered_symmetry ⟨344, 215⟩ 1 10000 600 (by norm_num) (by norm_num)
     (by norm_num)⟩

/-- Claim C4: for every screen geometry and positive near and far, the
solver at eye (5, 3, 0) returns exactly the result for eye (5, 3, 1), and
more generally any eye with nonpositive z yields the result for the same
x and y with z nudged to 1 (so no division by a nonpositive distance ever
happens; the rational model has no NaN). -/
theorem C4_degenerate_eye_fallback (screen : ScreenGeometry) (near far : ℚ)
    (hn : 0 < near) (hf : 0 < far) :
    calculateOffAxisFrustum ⟨5, 3, 0⟩ screen near far
        = calculateOffAxisFrustum ⟨5, 3, 1⟩ screen near far
    ∧ ∀ ex ey ez : ℚ, ez ≤ 0 →
        calculateOffAxisFrustum ⟨ex, ey, ez⟩ screen near far
          = calculateOffAxisFrustum ⟨ex, ey, 1⟩ screen near far := by
  refine ⟨calculateOffAxisFrustum_of_nonpos ⟨5, 3, 0⟩ screen near far (by norm_num),
    fun ex ey ez hz =>
      calculateOffAxisFrustum_of_nonpos ⟨ex, ey, ez⟩ screen near far hz⟩

/-- Witness for C4 at a concrete screen. -/
theorem C4_degenerate_eye_fallback_witness :
    0 < (1 : ℚ) ∧ 0 < (10000 : ℚ) ∧
    calculateOffAxisFrustum ⟨5, 3, 0⟩ ⟨344, 215⟩ 1 10000
      = calculateOffAxisFrustum ⟨5, 3, 1⟩ ⟨344, 215⟩ 1 10000 :=
  ⟨by norm_num, by norm_num,
   (C4_degenerate_eye_fallback ⟨344, 215⟩ 1 10000 (by norm_num) (by norm_num)).1⟩

/-- Vector subtraction helper of KooimaProjection.js. -/
def Vec3.sub (a b : Vec3) : Vec3 := ⟨a.x - b.x, a.y - b.y, a.z - b.z⟩

/-- Vector addition helper of KooimaProjection.js. -/
def Vec3.add (a b : Vec3) : Vec3 := ⟨a.x + b.x, a.y + b.y, a.z + b.z⟩

/-- Scalar multiplication helper of KooimaProjection.js. -/
def Vec3.scale (v : Vec3) (s : ℚ) : Vec3 := ⟨v.x * s, v.y * s, v.z * s⟩

/-- Dot product helper of KooimaProjection.js. -/
def Vec3.dot (a b : Vec3) : ℚ := a.x * b.x + a.y * b.y + a.z * b.z

/-- Cross product helper of KooimaProjection.js. -/
def Vec3.cross (a b : Vec3) : Vec3 :=
  ⟨a.y * b.z - a.z * b.y, a.z * b.x - a.x * b.z, a.x * b.y - a.y * b.x⟩

/-- Normalisation helper of KooimaProjection.js.  The source computes
len = Math.sqrt(x*x + y*y + z*z); since square roots of rationals are in
general irrational, Math.sqrt is abstracted as the oracle parameter s,
applied exactly where the source applies it. -/
def Vec3.normalize (s : ℚ → ℚ) (v : Vec3) : Vec3 :=
  let len := s (v.x * v.x + v.y * v.y + v.z * v.z)
  if len = 0 then ⟨0, 0, 0⟩ else ⟨v.x / len, v.y / len, v.z / len⟩

/-- Result record of calculateGeneralizedProjection: frustum parameters
plus the column-major view matrix as a flat array. -/
structure GeneralizedProjection where
  frustum : FrustumParams
  viewMatrix : List ℚ
deriving DecidableEq

/-- Embedding of calculateGeneralizedProjection from KooimaProjection.js.
The source recursion is not structurally bounded (for a degenerate screen
whose corners are collinear the normalised basis is the zero vector, the
nudge is a no-op and the recursion never terminates), so the embedding is
fuel-indexed: fuel n allows the initial call plus n - 1 retries, and none
means the fuel was exhausted.  s is the Math.sqrt oracle used by
Vec3.normalize. -/
def calculateGeneralizedProjection (s : ℚ → ℚ) :
    ℕ → Vec3 → Vec3 → Vec3 → Vec3 → ℚ → ℚ → Option GeneralizedProjection
  | 0, _, _, _, _, _, _ => none
  | Nat.succ fuel, eyePos, screenLL, screenLR, screenUL, near, far =>
    let vr := Vec3.normalize s (Vec3.sub screenLR screenLL)
    let vu := Vec3.normalize s (Vec3.sub screenUL screenLL)
    let vn := Vec3.normalize s (Vec3.cross vr vu)
    let va := Vec3.sub screenLL eyePos
    let vb := Vec3.sub screenLR eyePos
    let vc := Vec3.sub screenUL eyePos
    let d := -(Vec3.dot va vn)
    if d ≤ 0 then
      -- eye is behind the screen: nudge forward along the normal and retry
      calculateGeneralizedProjection s fuel
        (Vec3.add eyePos (Vec3.scale vn (1 - d))) screenLL screenLR screenUL
        near far
    else
      let k := near / d
      let tx := -(Vec3.dot vr eyePos)
      let ty := -(Vec3.dot vu eyePos)
      let tz := -(Vec3.dot vn eyePos)
      some { frustum := { left := Vec3.dot vr va * k, right := Vec3.dot vr vb * k,
                          top := Vec3.dot vu vc * k, bottom := Vec3.dot vu va * k,
                          near := near, far := far },
             viewMatrix := [vr.x, vu.x, vn.x, 0, vr.y, vu.y, vn.y, 0,
                            vr.z, vu.z, vn.z, 0, tx, ty, tz, 1] }

/-- The screen-basis normal vector vn computed by
calculateGeneralizedProjection from the three screen corners. -/
def screenNormal (s : ℚ → ℚ) (screenLL screenLR screenUL : Vec3) : Vec3 :=
  Vec3.normalize s
    (Vec3.cross (Vec3.normalize s (Vec3.sub screenLR screenLL))
      (Vec3.normalize s (Vec3.sub screenUL screenLL)))

/-- The perpendicular eye-to-screen distance d = -(va . vn) computed by
calculateGeneralizedProjection. -/
def eyeScreenDist (s : ℚ → ℚ) (eyePos screenLL screenLR screenUL : Vec3) : ℚ :=
  -(Vec3.dot (Vec3.sub screenLL eyePos) (screenNormal s screenLL screenLR screenUL))

/-- Helper: nudging the eye along a unit vector n by 1 - d moves its
perpendicular distance to exactly 1, whatever d was. -/
lemma dot_nudge (n pa eyePos : Vec3) (hn : Vec3.dot n n = 1) :
    -(Vec3.dot
        (Vec3.sub pa
          (Vec3.add eyePos (Vec3.scale n (1 - -(Vec3.dot (Vec3.sub pa eyePos) n))))) n)
      = 1 := by
  simp only [Vec3.dot, Vec3.sub, Vec3.add, Vec3.scale] at hn ⊢
  linear_combination (1 + ((pa.x - eyePos.x) * n.x + (pa.y - eyePos.y) * n.y +
    (pa.z - eyePos.z) * n.z)) * hn

/-- Helper: with the eye strictly in front of the screen, one unit of fuel
suffices and the fuel-indexed solver agrees with the total one. -/
lemma calculateOffAxisFrustumFuel_succ_of_pos (k : ℕ) (eyePos : Vec3)
    (screen : ScreenGeometry) (near far : ℚ) (hz : 0 < eyePos.z) :
    calculateOffAxisFrustumFuel (k + 1) eyePos screen near far
      = some (calculateOffAxisFrustum eyePos screen near far) := by
  have hd : ¬ (-(0 - eyePos.z) ≤ 0) := by linarith
  rw [calculateOffAxisFrustum_of_pos _ _ _ _ hz]
  simp only [calculateOffAxisFrustumFuel]
  rw [if_neg hd]
  norm_num

/-- Claim C5 as amended: the degenerate-eye fallback terminates after at
most one retry, for all inputs of calculateOffAxisFrustum (fuel 2 always
suffices and agrees with the total function), and for all inputs of
calculateGeneralizedProjection whose three screen corners give a unit
normal vector (the non-degenerate case in which Math.sqrt returns the
exact length): there the eye nudged along the normal by 1 - d has
perpendicular distance exactly 1, and fuel 2 suffices. -/
theorem C5_fallback_single_retry :
    (∀ (eyePos : Vec3) (screen : ScreenGeometry) (near far : ℚ),
        calculateOffAxisFrustumFuel 2 eyePos screen near far
          = some (calculateOffAxisFrustum eyePos screen near far))
    ∧ (∀ (s : ℚ → ℚ) (eyePos screenLL screenLR screenUL : Vec3) (near far : ℚ),
        Vec3.dot (screenNormal s screenLL screenLR screenUL)
            (screenNormal s screenLL screenLR screenUL) = 1 →
        eyeScreenDist s
            (Vec3.add eyePos
              (Vec3.scale (screenNormal s screenLL screenLR screenUL)
                (1 - eyeScreenDist s eyePos screenLL screenLR screenUL)))
            screenLL screenLR screenUL = 1
        ∧ (calculateGeneralizedProjection s 2 eyePos screenLL screenLR screenUL
            near far).isSome = true) := by
  constructor
  · intro eyePos screen near far
    by_cases hz : 0 < eyePos.z
    · exact calculateOffAxisFrustumFuel_succ_of_pos 1 eyePos screen near far hz
    · have hz' : eyePos.z ≤ 0 := by linarith
      have hd : -(0 - eyePos.z) ≤ 0 := by linarith
      rw [calculateOffAxisFrustum_of_nonpos _ _ _ _ hz']
      show calculateOffAxisFrustumFuel (1 + 1) eyePos screen near far = _
      simp only [calculateOffAxisFrustumFuel]
      rw [if_pos hd]
      exact calculateOffAxisFrustumFuel_succ_of_pos 0 ⟨eyePos.x, eyePos.y, 1⟩
        screen near far (by norm_num)
  · intro s eyePos screenLL screenLR screenUL near far hn
    have key := dot_nudge (screenNormal s screenLL screenLR screenUL)
      screenLL eyePos hn
    refine ⟨key, ?_⟩
    show (calculateGeneralizedProjection s (Nat.succ (Nat.succ 0)) eyePos
      screenLL screenLR screenUL near far).isSome = true
    simp only [calculateGeneralizedProjection, screenNormal, eyeScreenDist] at key ⊢
    split
    · rw [if_neg]
      · simp
      · rw [key]
        norm_num
    · simp

/-- Helper: on the fully degenerate screen (all corners at the origin) and
eye at the origin, no amount of fuel makes the generalized solver return:
the normal is the zero vector, so the nudge is a no-op and every retry
sees the same nonpositive distance. -/
lemma genProj_degenerate_none (n : ℕ) :
    calculateGeneralizedProjection (fun _ => 0) n
        ⟨0, 0, 0⟩ ⟨0, 0, 0⟩ ⟨0, 0, 0⟩ ⟨0, 0, 0⟩ 1 10000 = none := by
  induction n with
  | zero => rfl
  | succ k ih =>
    show calculateGeneralizedProjection _ (Nat.succ k) _ _ _ _ _ _ = none
    simp only [calculateGeneralizedProjection, Vec3.normalize, Vec3.sub,
      Vec3.cross, Vec3.dot, Vec3.add, Vec3.scale]
    norm_num
    exact ih

/-- Claim C5, counterexample: for a degenerate screen whose three corners
coincide, normalising a zero-length vector yields the zero vector (the
source's normalize explicitly returns (0,0,0) when the length is 0, and
Math.sqrt 0 = 0, which the oracle here reproduces), so d = 0, the nudge
by 1 - d along the zero normal leaves the eye unchanged, and the retry
does not reach a positive distance: fuel 2 (one retry, as the claim
states) fails, and even 100 units of fuel fail, so the recursion of the
source never terminates on this input. -/
theorem C5_fallback_counterexample :
    calculateGeneralizedProjection (fun _ => 0) 2
        ⟨0, 0, 0⟩ ⟨0, 0, 0⟩ ⟨0, 0, 0⟩ ⟨0, 0, 0⟩ 1 10000 = none
    ∧ calculateGeneralizedProjection (fun _ => 0) 100
        ⟨0, 0, 0⟩ ⟨0, 0, 0⟩ ⟨0, 0, 0⟩ ⟨0, 0, 0⟩ 1 10000 = none :=
  ⟨genProj_degenerate_none 2, genProj_degenerate_none 100⟩

/-- Witness for C5 with a concrete unit-square screen (all lengths that
Math.sqrt is applied to are 1, so the identity oracle is exact) and an
eye behind the screen plane. -/
theorem C5_fallback_single_retry_witness :
    Vec3.dot (screenNormal (fun q => q) ⟨0, 0, 0⟩ ⟨1, 0, 0⟩ ⟨0, 1, 0⟩)
        (screenNormal (fun q => q) ⟨0, 0, 0⟩ ⟨1, 0, 0⟩ ⟨0, 1, 0⟩) = 1
    ∧ (eyeScreenDist (fun q => q)
          (Vec3.add ⟨0, 0, -5⟩
            (Vec3.scale (screenNormal (fun q => q) ⟨0, 0, 0⟩ ⟨1, 0, 0⟩ ⟨0, 1, 0⟩)
              (1 - eyeScreenDist (fun q => q) ⟨0, 0, -5⟩ ⟨0, 0, 0⟩ ⟨1, 0, 0⟩
                ⟨0, 1, 0⟩)))
          ⟨0, 0, 0⟩ ⟨1, 0, 0⟩ ⟨0, 1, 0⟩ = 1
       ∧ (calculateGeneralizedProjection (fun q => q) 2 ⟨0, 0, -5⟩ ⟨0, 0, 0⟩
            ⟨1, 0, 0⟩ ⟨0, 1, 0⟩ 1 10000).isSome = true)
    ∧ calculateOffAxisFrustumFuel 2 ⟨0, 0, -5⟩ ⟨344, 215⟩ 1 10000
        = some (calculateOffAxisFrustum ⟨0, 0, -5⟩ ⟨344, 215⟩ 1 10000) :=
  ⟨by norm_num [screenNormal, Vec3.normalize, Vec3.sub, Vec3.cross, Vec3.dot],
   C5_fallback_single_retry.2 (fun q => q) ⟨0, 0, -5⟩ ⟨0, 0, 0⟩ ⟨1, 0, 0⟩
     ⟨0, 1, 0⟩ 1 10000
     (by norm_num [screenNormal, Vec3.normalize, Vec3.sub, Vec3.cross, Vec3.dot]),
   C5_fallback_single_retry.1 ⟨0, 0, -5⟩ ⟨344, 215⟩ 1 10000⟩

/-- The double-precision value of Math.PI, as an exact rational decimal.
It enters only through the smoothing coefficient; no theorem below
depends on its value. -/
def jsPI : ℚ := 3.141592653589793

/-- State of the LowPassFilter class of Smoothing.js: the previous
filtered value, null before the first call. -/
structure LowPassFilter where
  prev : Option ℚ
deriving DecidableEq

/-- LowPassFilter.filter: exponential smoothing step, returning the output
together with the updated state (the source mutates this._prev). -/
def LowPassFilter.filter (f : LowPassFilter) (x alpha : ℚ) :
    ℚ × LowPassFilter :=
  match f.prev with
  | none => (x, ⟨some x⟩)
  | some p =>
    let filtered := alpha * x + (1 - alpha) * p
    (filtered, ⟨some filtered⟩)

/-- LowPassFilter.reset: clear the stored value. -/
def LowPassFilter.reset (_ : LowPassFilter) : LowPassFilter := ⟨none⟩

/-- State of the OneEuroFilter class of Smoothing.js: the three parameters
plus the two internal low-pass filters and the previous timestamp. -/
structure OneEuroFilter where
  minCutoff : ℚ
  beta : ℚ
  dCutoff : ℚ
  xFilter : LowPassFilter
  dxFilter : LowPassFilter
  tPrev : Option ℚ
deriving DecidableEq

/-- OneEuroFilter alpha helper: smoothing factor from cutoff frequency
and timestep (the source method reads no instance state).  Note the
rational model makes division by zero total (q / 0 = 0); under the
spec's positive-parameter and positive-dt contract the denominators are
nonzero, and no theorem below evaluates alpha outside that contract. -/
def OneEuroFilter.alpha (cutoff dt : ℚ) : ℚ :=
  let tau := 1 / (2 * jsPI * cutoff)
  1 / (1 + tau / dt)

/-- OneEuroFilter.filter: one filtering step, returning the output and the
updated state.  On the dt <= 0 guard the source returns this._xFilter.prev,
which is non-null whenever tPrev is (both are set together on the first
call); the Option is collapsed with a default that is never reached
through the class API. -/
def OneEuroFilter.filter (f : OneEuroFilter) (x timestamp : ℚ) :
    ℚ × OneEuroFilter :=
  match f.tPrev with
  | none =>
    let xr := f.xFilter.filter x 1
    let dxr := f.dxFilter.filter 0 1
    (x, { f with xFilter := xr.2, dxFilter := dxr.2, tPrev := some timestamp })
  | some tp =>
    let dt := timestamp - tp
    if dt ≤ 0 then (f.xFilter.prev.getD 0, f)
    else
      let dx := (x - f.xFilter.prev.getD 0) / dt
      let alphaDx := OneEuroFilter.alpha f.dCutoff dt
      let dxr := f.dxFilter.filter dx alphaDx
      let cutoff := f.minCutoff + f.beta * |dxr.1|
      let a := OneEuroFilter.alpha cutoff dt
      let xr := f.xFilter.filter x a
      (xr.1, { f with
               xFilter := xr.2,
               dxFilter := dxr.2,
               tPrev := some timestamp })

/-- OneEuroFilter.reset: clear both low-pass filters and the timestamp,
keeping the configuration parameters. -/
def OneEuroFilter.reset (f : OneEuroFilter) : OneEuroFilter :=
  { f with
    xFilter := f.xFilter.reset,
    dxFilter := f.dxFilter.reset,
    tPrev := none }

/-- State of the Vector3OneEuroFilter class of Smoothing.js: one scalar
filter per axis, the dead-zone threshold in mm, and the last emitted
point. -/
structure Vector3OneEuroFilter where
  filterX : OneEuroFilter
  filterY : OneEuroFilter
  filterZ : OneEuroFilter
  deadZone : ℚ
  lastOutput : Option Vec3
deriving DecidableEq

/-- Vector3OneEuroFilter.filter: filter each axis, then apply the dead
zone against the last emitted point.  The source compares
Math.sqrt(dx*dx + dy*dy + dz*dz) < deadZone; since both sides are
nonnegative in the guarded branch (deadZone > 0), this is equivalent to
comparing the squares, which is how the exact rational model states it. -/
def Vector3OneEuroFilter.filter (f : Vector3OneEuroFilter) (pos : Vec3)
    (timestamp : ℚ) : Vec3 × Vector3OneEuroFilter :=
  let rx := f.filterX.filter pos.x timestamp
  let ry := f.filterY.filter pos.y timestamp
  let rz := f.filterZ.filter pos.z timestamp
  let filtered : Vec3 := ⟨rx.1, ry.1, rz.1⟩
  let f1 := { f with filterX := rx.2, filterY := ry.2, filterZ := rz.2 }
  match f.lastOutput with
  | some last =>
    if 0 < f.deadZone then
      let dx := filtered.x - last.x
      let dy := filtered.y - last.y
      let dz := filtered.z - last.z
      if dx * dx + dy * dy + dz * dz < f.deadZone * f.deadZone then
        (last, f1)
      else
        (filtered, { f1 with lastOutput := some filtered })
    else
      (filtered, { f1 with lastOutput := some filtered })
  | none => (filtered, { f1 with lastOutput := some filtered })

/-- Vector3OneEuroFilter.reset: reset all three axis filters and the
remembered last output. -/
def Vector3OneEuroFilter.reset (f : Vector3OneEuroFilter) :
    Vector3OneEuroFilter :=
  { f with
    filterX := f.filterX.reset,
    filterY := f.filterY.reset,
    filterZ := f.filterZ.reset,
    lastOutput := none }

/-- The per-axis filtered point a Vector3OneEuroFilter.filter call
computes before the dead-zone test (re-expressing the pure intermediate
value "filtered" of the source). -/
def Vector3OneEuroFilter.filteredPoint (f : Vector3OneEuroFilter)
    (pos : Vec3) (timestamp : ℚ) : Vec3 :=
  ⟨(f.filterX.filter pos.x timestamp).1, (f.filterY.filter pos.y timestamp).1,
   (f.filterZ.filter pos.z timestamp).1⟩

/-- Squared Euclidean distance dx*dx + dy*dy + dz*dz as computed inside
Vector3OneEuroFilter.filter (a, b standing for the filtered point and the
last emitted point). -/
def sqDist (a b : Vec3) : ℚ :=
  (a.x - b.x) * (a.x - b.x) + (a.y - b.y) * (a.y - b.y)
    + (a.z - b.z) * (a.z - b.z)

/-- Helper: a first call to a scalar filter (no previous timestamp)
returns the input unchanged and initialises the state. -/
lemma oneEuro_first_call (g : OneEuroFilter) (x t : ℚ) (h : g.tPrev = none) :
    g.filter x t = (x, { g with
      xFilter := (g.xFilter.filter x 1).2,
      dxFilter := (g.dxFilter.filter 0 1).2,
      tPrev := some t }) := by
  unfold OneEuroFilter.filter
  rw [h]

/-- Helper: any call whose timestamp is strictly newer than the stored one
(or whose state is fresh) records the new timestamp. -/
lemma oneEuro_tPrev_advance (g : OneEuroFilter) (x t : ℚ)
    (h : ∀ tp, g.tPrev = some tp → tp < t) :
    ((g.filter x t).2).tPrev = some t := by
  unfold OneEuroFilter.filter
  cases hg : g.tPrev with
  | none => simp
  | some tp =>
    have htp := h tp hg
    have hdt : ¬ (t - tp ≤ 0) := by linarith
    simp [hdt]

/-- Helper: the dead-zone suppressed branch of the vector filter returns
the last emitted point and the state whose axis filters advanced but whose
last output did not. -/
lemma vecFilter_suppress (f : Vector3OneEuroFilter) (pos : Vec3) (t : ℚ)
    (last : Vec3) (hlast : f.lastOutput = some last) (hdz : 0 < f.deadZone)
    (hlt : sqDist (f.filteredPoint pos t) last < f.deadZone * f.deadZone) :
    f.filter pos t = (last, { f with
      filterX := (f.filterX.filter pos.x t).2,
      filterY := (f.filterY.filter pos.y t).2,
      filterZ := (f.filterZ.filter pos.z t).2 }) := by
  simp only [sqDist, Vector3OneEuroFilter.filteredPoint] at hlt
  simp only [Vector3OneEuroFilter.filter, hlast]
  rw [if_pos hdz, if_pos hlt]

/-- Helper: when the filtered point clears the dead zone, the vector
filter emits it and remembers it. -/
lemma vecFilter_emit_far (f : Vector3OneEuroFilter) (pos : Vec3) (t : ℚ)
    (last : Vec3) (hlast : f.lastOutput = some last) (hdz : 0 < f.deadZone)
    (hge : f.deadZone * f.deadZone ≤ sqDist (f.filteredPoint pos t) last) :
    f.filter pos t = (f.filteredPoint pos t, { f with
      filterX := (f.filterX.filter pos.x t).2,
      filterY := (f.filterY.filter pos.y t).2,
      filterZ := (f.filterZ.filter pos.z t).2,
      lastOutput := some (f.filteredPoint pos t) }) := by
  have hnlt : ¬ (sqDist (f.filteredPoint pos t) last
      < f.deadZone * f.deadZone) := by linarith
  simp only [sqDist, Vector3OneEuroFilter.filteredPoint] at hnlt
  simp only [Vector3OneEuroFilter.filter, Vector3OneEuroFilter.filteredPoint,
    hlast]
  rw [if_pos hdz, if_neg hnlt]

/-- Helper: with no previously emitted point the vector filter emits the
filtered point unconditionally. -/
lemma vecFilter_emit_first (f : Vector3OneEuroFilter) (pos : Vec3) (t : ℚ)
    (hlast : f.lastOutput = none) :
    f.filter pos t = (f.filteredPoint pos t, { f with
      filterX := (f.filterX.filter pos.x t).2,
      filterY := (f.filterY.filter pos.y t).2,
      filterZ := (f.filterZ.filter pos.z t).2,
      lastOutput := some (f.filteredPoint pos t) }) := by
  simp only [Vector3OneEuroFilter.filter, Vector3OneEuroFilter.filteredPoint,
    hlast]

/-- Claim C6: once a OneEuroFilter has been called (so it has a stored
timestamp and a stored filtered value), a call with a timestamp at most
the stored one (dt <= 0) returns the last filtered value, for every
input x, and leaves the state untouched. -/
theorem C6_nonmonotonic_timestamp_returns_last (f : OneEuroFilter)
    (x t tp v : ℚ) (ht : f.tPrev = some tp) (hv : f.xFilter.prev = some v)
    (hle : t ≤ tp) :
    f.filter x t = (v, f) := by
  unfold OneEuroFilter.filter
  have hdt : t - tp ≤ 0 := by linarith
  simp [ht, hdt, hv]

/-- Claim C7: for a vector filter with dead zone 2.0 mm that has already
emitted a point, a call whose per-axis-filtered point lies at squared
distance below 2 * 2 from the last emitted point (Euclidean distance
strictly below 2.0 mm, such as 1.0 mm) returns that last point unchanged
and keeps it remembered; at squared distance at least 2 * 2 (distance at
least 2.0 mm, such as 3.0 mm) it returns the new filtered point and
remembers it. -/
theorem C7_dead_zone_suppression (f : Vector3OneEuroFilter) (pos : Vec3)
    (t : ℚ) (last : Vec3) (hdz : f.deadZone = 2)
    (hlast : f.lastOutput = some last) :
    (sqDist (f.filteredPoint pos t) last < 2 * 2 →
        (f.filter pos t).1 = last
        ∧ (f.filter pos t).2.lastOutput = some last)
    ∧ (2 * 2 ≤ sqDist (f.filteredPoint pos t) last →
        (f.filter pos t).1 = f.filteredPoint pos t
        ∧ (f.filter pos t).2.lastOutput = some (f.filteredPoint pos t)) := by
  have hdz0 : 0 < f.deadZone := by rw [hdz]; norm_num
  constructor
  · intro hlt
    rw [vecFilter_suppress f pos t last hlast hdz0 (by rw [hdz]; exact hlt)]
    exact ⟨rfl, hlast⟩
  · intro hge
    rw [vecFilter_emit_far f pos t last hlast hdz0 (by rw [hdz]; exact hge)]
    exact ⟨rfl, rfl⟩

/-- Claim C10: when the dead zone suppresses a sample, the three per-axis
filter states are still the fully advanced post-call states (so their
stored timestamps move to the new timestamp whenever it is newer) and
only the remembered last-emitted point is left unchanged. -/
theorem C10_suppressed_sample_advances_axes (f : Vector3OneEuroFilter)
    (pos : Vec3) (t : ℚ) (last : Vec3) (hlast : f.lastOutput = some last)
    (hdz : 0 < f.deadZone)
    (hlt : sqDist (f.filteredPoint pos t) last < f.deadZone * f.deadZone) :
    f.filter pos t = (last, { f with
      filterX := (f.filterX.filter pos.x t).2,
      filterY := (f.filterY.filter pos.y t).2,
      filterZ := (f.filterZ.filter pos.z t).2 })
    ∧ ((∀ tp, f.filterX.tPrev = some tp → tp < t) →
        (f.filter pos t).2.filterX.tPrev = some t)
    ∧ ((∀ tp, f.filterY.tPrev = some tp → tp < t) →
        (f.filter pos t).2.filterY.tPrev = some t)
    ∧ ((∀ tp, f.filterZ.tPrev = some tp → tp < t) →
        (f.filter pos t).2.filterZ.tPrev = some t) := by
  have hmain := vecFilter_suppress f pos t last hlast hdz hlt
  refine ⟨hmain, ?_, ?_, ?_⟩ <;> intro h <;> rw [hmain] <;>
    exact oneEuro_tPrev_advance _ _ _ h

/-- A freshly constructed scalar filter with the source's default
parameters (minCutoff 1.0, beta 0.5, dCutoff 1.0), used by witnesses. -/
def sampleEuroFresh : OneEuroFilter := ⟨1, 1/2, 1, ⟨none⟩, ⟨none⟩, none⟩

/-- A vector filter with the default dead zone 2.0 whose axis filters are
fresh but which has already emitted the origin, used by witnesses. -/
def sampleVecFilter : Vector3OneEuroFilter :=
  ⟨sampleEuroFresh, sampleEuroFresh, sampleEuroFresh, 2, some ⟨0, 0, 0⟩⟩

/-- A scalar filter that has already processed one sample (value 5 at
time 10), used by the C6 witness. -/
def sampleEuroRun : OneEuroFilter := ⟨1, 1/2, 1, ⟨some 5⟩, ⟨some 0⟩, some 10⟩

/-- Witness for C6: a call at an older timestamp returns the stored value
5 and leaves the state unchanged. -/
theorem C6_nonmonotonic_timestamp_returns_last_witness :
    sampleEuroRun.tPrev = some 10 ∧ sampleEuroRun.xFilter.prev = some 5
    ∧ (9 : ℚ) ≤ 10 ∧ sampleEuroRun.filter 42 9 = (5, sampleEuroRun) :=
  ⟨rfl, rfl, by norm_num,
   C6_nonmonotonic_timestamp_returns_last sampleEuroRun 42 9 10 5 rfl rfl
     (by norm_num)⟩

/-- Witness for C7: on fresh axis filters the filtered point equals the
input, so input (1,0,0) against last point (0,0,0) is suppressed while
(3,0,0) is emitted. -/
theorem C7_dead_zone_suppression_witness :
    sampleVecFilter.deadZone = 2
    ∧ sampleVecFilter.lastOutput = some ⟨0, 0, 0⟩
    ∧ sqDist (sampleVecFilter.filteredPoint ⟨1, 0, 0⟩ 0) ⟨0, 0, 0⟩ < 2 * 2
    ∧ (sampleVecFilter.filter ⟨1, 0, 0⟩ 0).1 = ⟨0, 0, 0⟩
    ∧ 2 * 2 ≤ sqDist (sampleVecFilter.filteredPoint ⟨3, 0, 0⟩ 0) ⟨0, 0, 0⟩
    ∧ (sampleVecFilter.filter ⟨3, 0, 0⟩ 0).1
        = sampleVecFilter.filteredPoint ⟨3, 0, 0⟩ 0 := by
  have h1 : sqDist (sampleVecFilter.filteredPoint ⟨1, 0, 0⟩ 0) ⟨0, 0, 0⟩
      < 2 * 2 := by
    norm_num [sqDist, Vector3OneEuroFilter.filteredPoint, sampleVecFilter,
      sampleEuroFresh, OneEuroFilter.filter]
  have h2 : 2 * 2 ≤ sqDist (sampleVecFilter.filteredPoint ⟨3, 0, 0⟩ 0)
      ⟨0, 0, 0⟩ := by
    norm_num [sqDist, Vector3OneEuroFilter.filteredPoint, sampleVecFilter,
      sampleEuroFresh, OneEuroFilter.filter]
  exact ⟨rfl, rfl, h1,
    ((C7_dead_zone_suppression sampleVecFilter ⟨1, 0, 0⟩ 0 ⟨0, 0, 0⟩ rfl
        rfl).1 h1).1,
    h2,
    ((C7_dead_zone_suppression sampleVecFilter ⟨3, 0, 0⟩ 0 ⟨0, 0, 0⟩ rfl
        rfl).2 h2).1⟩

/-- Witness for C10: a suppressed sample at time 7 still installs the
advanced axis-filter states, whose recorded timestamp becomes 7. -/
theorem C10_suppressed_sample_advances_axes_witness :
    sampleVecFilter.lastOutput = some ⟨0, 0, 0⟩
    ∧ 0 < sampleVecFilter.deadZone
    ∧ sqDist (sampleVecFilter.filteredPoint ⟨1, 0, 0⟩ 7) ⟨0, 0, 0⟩
        < sampleVecFilter.deadZone * sampleVecFilter.deadZone
    ∧ sampleVecFilter.filter ⟨1, 0, 0⟩ 7 = (⟨0, 0, 0⟩, { sampleVecFilter with
        filterX := (sampleVecFilter.filterX.filter 1 7).2,
        filterY := (sampleVecFilter.filterY.filter 0 7).2,
        filterZ := (sampleVecFilter.filterZ.filter 0 7).2 })
    ∧ (sampleVecFilter.filter ⟨1, 0, 0⟩ 7).2.filterX.tPrev = some 7 := by
  have h1 : sqDist (sampleVecFilter.filteredPoint ⟨1, 0, 0⟩ 7) ⟨0, 0, 0⟩
      < sampleVecFilter.deadZone * sampleVecFilter.deadZone := by
    norm_num [sqDist, Vector3OneEuroFilter.filteredPoint, sampleVecFilter,
      sampleEuroFresh, OneEuroFilter.filter]
  have hm := C10_suppressed_sample_advances_axes sampleVecFilter ⟨1, 0, 0⟩ 7
    ⟨0, 0, 0⟩ rfl (by norm_num [sampleVecFilter]) h1
  refine ⟨rfl, by norm_num [sampleVecFilter], h1, hm.1, hm.2.1 ?_⟩
  intro tp h
  simp [sampleVecFilter, sampleEuroFresh] at h

/-- Average human iris diameter in mm (constant of HeadPoseEstimator.js). -/
def IRIS_DIAMETER_MM : ℚ := 11.7

/-- Minimum iris width in pixels to trust the depth estimate (constant of
HeadPoseEstimator.js). -/
def MIN_IRIS_PX : ℚ := 5

/-- Indexed landmark access.  The source indexes the landmark array
directly (indices 1, 469, 471, 474, 476); an out-of-range access is a
caller contract violation in the source (it would crash), modelled here
by a zero default that the theorems never rely on. -/
def lmGet (landmarks : List Vec3) (i : ℕ) : Vec3 :=
  landmarks.getD i ⟨0, 0, 0⟩

/-- State of the HeadPoseEstimator class: configuration plus the smoothing
filter and the tracking flag. -/
structure HeadPoseEstimator where
  screenW : ℚ
  screenH : ℚ
  defaultZ : ℚ
  videoW : ℚ
  videoH : ℚ
  sensX : ℚ
  sensY : ℚ
  sensZ : ℚ
  useIrisDepth : Bool
  focalLengthPx : Option ℚ
  filter : Vector3OneEuroFilter
  wasTracking : Bool
deriving DecidableEq

/-- HeadPoseEstimator irisWidthPx helper: average of the two horizontal
iris diameters, in pixels. -/
def HeadPoseEstimator.irisWidthPx (e : HeadPoseEstimator)
    (landmarks : List Vec3) : ℚ :=
  let leftW := |(lmGet landmarks 469).x - (lmGet landmarks 471).x| * e.videoW
  let rightW := |(lmGet landmarks 474).x - (lmGet landmarks 476).x| * e.videoW
  (leftW + rightW) / 2

/-- HeadPoseEstimator estimateDepthFromIris helper: pinhole depth from the
measured iris width, falling back to the default distance when the iris
is below the trust threshold.  The source reads this._focalLengthPx,
non-null at every call site (guarded by the caller); the Option is
collapsed with a default the theorems never rely on. -/
def HeadPoseEstimator.estimateDepthFromIris (e : HeadPoseEstimator)
    (landmarks : List Vec3) : ℚ :=
  let irisPx := e.irisWidthPx landmarks
  if irisPx < MIN_IRIS_PX then e.defaultZ
  else (e.focalLengthPx.getD 0 * IRIS_DIAMETER_MM) / irisPx

/-- HeadPoseEstimator.calibrate: solve the pinhole relation for the focal
length from a known distance; none models the thrown error when the iris
signal is too weak (in which case no state changes). -/
def HeadPoseEstimator.calibrate (e : HeadPoseEstimator)
    (landmarks : List Vec3) (distanceMm : ℚ) :
    Option (ℚ × HeadPoseEstimator) :=
  let irisPx := e.irisWidthPx landmarks
  if irisPx < MIN_IRIS_PX then none
  else
    let fpx := (irisPx * distanceMm) / IRIS_DIAMETER_MM
    some (fpx, { e with focalLengthPx := some fpx, useIrisDepth := true })

/-- HeadPoseEstimator.estimate: landmarks to smoothed head position.  The
source treats a null and an empty landmark array identically, so both are
modelled by the empty list.  The source reads the clock internally
(performance.now() / 1000); the clock value is the explicit parameter t. -/
def HeadPoseEstimator.estimate (e : HeadPoseEstimator)
    (landmarks : List Vec3) (t : ℚ) : Option Vec3 × HeadPoseEstimator :=
  if landmarks = [] then
    -- face lost: reset the filter once, on the transition out of tracking
    if e.wasTracking then
      (none, { e with filter := e.filter.reset, wasTracking := false })
    else
      (none, e)
  else
    let nose := lmGet landmarks 1
    let x := (nose.x - 1/2) * e.screenW
    let y := (1/2 - nose.y) * e.screenH
    let z := if e.useIrisDepth && e.focalLengthPx.isSome then
      e.estimateDepthFromIris landmarks
    else e.defaultZ
    let x1 := x * e.sensX
    let y1 := y * e.sensY
    let z1 := e.defaultZ + (z - e.defaultZ) * e.sensZ
    let r := e.filter.filter ⟨x1, y1, z1⟩ t
    (some r.1, { e with wasTracking := true, filter := r.2 })

/-- Helper: estimate on empty landmarks while tracking resets the filter
and clears the tracking flag. -/
lemma estimate_empty_tracking (e : HeadPoseEstimator) (t : ℚ)
    (hw : e.wasTracking = true) :
    e.estimate [] t = (none, { e with
      filter := e.filter.reset, wasTracking := false }) := by
  simp [HeadPoseEstimator.estimate, hw]

/-- Helper: estimate on empty landmarks while not tracking changes
nothing. -/
lemma estimate_empty_not_tracking (e : HeadPoseEstimator) (t : ℚ)
    (hw : e.wasTracking = false) :
    e.estimate [] t = (none, e) := by
  simp [HeadPoseEstimator.estimate, hw]

/-- Helper: estimate on nonempty landmarks marks the estimator as
tracking. -/
lemma estimate_nonempty_wasTracking (e : HeadPoseEstimator)
    (landmarks : List Vec3) (t : ℚ) (hl : landmarks ≠ []) :
    (e.estimate landmarks t).2.wasTracking = true := by
  simp [HeadPoseEstimator.estimate, hl]

/-- Claim C9: estimate on absent-or-empty landmarks returns none; it
resets the Vector Smoothing Filter exactly when the estimator was
tracking (and then clears the flag), leaves the state untouched
otherwise, so a second absent-landmark call is a no-op; and any
successful call marks the estimator as tracking, which is what arms the
single reset for the next loss. -/
theorem C9_no_signal_reset_once (e : HeadPoseEstimator) (t t2 : ℚ) :
    (e.estimate [] t).1 = none
    ∧ (e.wasTracking = true →
        (e.estimate [] t).2 = { e with
          filter := e.filter.reset, wasTracking := false })
    ∧ (e.wasTracking = false → (e.estimate [] t).2 = e)
    ∧ (e.estimate [] t).2.estimate [] t2 = (none, (e.estimate [] t).2)
    ∧ (∀ landmarks : List Vec3, landmarks ≠ [] →
        (e.estimate landmarks t).2.wasTracking = true) := by
  refine ⟨?_, ?_, ?_, ?_, ?_⟩
  · cases hw : e.wasTracking
    · rw [estimate_empty_not_tracking e t hw]
    · rw [estimate_empty_tracking e t hw]
  · intro hw
    rw [estimate_empty_tracking e t hw]
  · intro hw
    rw [estimate_empty_not_tracking e t hw]
  · cases hw : e.wasTracking
    · rw [estimate_empty_not_tracking e t hw,
        estimate_empty_not_tracking e t2 hw]
    · rw [estimate_empty_tracking e t hw]
      exact estimate_empty_not_tracking _ t2 rfl
  · intro landmarks hl
    exact estimate_nonempty_wasTracking e landmarks t hl

/-- A fresh vector filter (no history) with the default dead zone, used
by witnesses. -/
def sampleVecFresh : Vector3OneEuroFilter :=
  ⟨sampleEuroFresh, sampleEuroFresh, sampleEuroFresh, 2, none⟩

/-- A concrete estimator marked as tracking, used by the C9 witness. -/
def sampleEstimator : HeadPoseEstimator :=
  ⟨344, 215, 600, 640, 480, 1, 1, 1, false, none, sampleVecFresh, true⟩

/-- Witness for C9 on a tracking estimator: the loss call returns none
and resets, and a nonempty call marks tracking. -/
theorem C9_no_signal_reset_once_witness :
    sampleEstimator.wasTracking = true
    ∧ (sampleEstimator.estimate [] 0).1 = none
    ∧ (sampleEstimator.estimate [] 0).2 = { sampleEstimator with
        filter := sampleEstimator.filter.reset, wasTracking := false }
    ∧ ([(⟨0, 0, 0⟩ : Vec3)] ≠ ([] : List Vec3))
    ∧ (sampleEstimator.estimate [⟨0, 0, 0⟩] 0).2.wasTracking = true :=
  ⟨rfl,
   (C9_no_signal_reset_once sampleEstimator 0 0).1,
   (C9_no_signal_reset_once sampleEstimator 0 0).2.1 rfl,
   by simp,
   (C9_no_signal_reset_once sampleEstimator 0 0).2.2.2.2 [⟨0, 0, 0⟩]
     (by simp)⟩

/-- Helper: the iris width measured on an empty landmark list is 0 (all
indexed reads fall back to the origin). -/
lemma irisWidthPx_nil (e : HeadPoseEstimator) : e.irisWidthPx [] = 0 := by
  simp [HeadPoseEstimator.irisWidthPx, lmGet]

/-- Helper: a vector filter whose axes have no history filters a point to
itself. -/
lemma filteredPoint_fresh (f : Vector3OneEuroFilter) (pos : Vec3) (t : ℚ)
    (hx : f.filterX.tPrev = none) (hy : f.filterY.tPrev = none)
    (hz : f.filterZ.tPrev = none) :
    f.filteredPoint pos t = pos := by
  cases pos
  simp [Vector3OneEuroFilter.filteredPoint, oneEuro_first_call _ _ _ hx,
    oneEuro_first_call _ _ _ hy, oneEuro_first_call _ _ _ hz]

/-- Helper: the output of estimate on nonempty landmarks, written out. -/
lemma estimate_nonempty_fst (e : HeadPoseEstimator) (landmarks : List Vec3)
    (t : ℚ) (hl : landmarks ≠ []) :
    (e.estimate landmarks t).1 =
      some ((e.filter.filter
        ⟨((lmGet landmarks 1).x - 1/2) * e.screenW * e.sensX,
         (1/2 - (lmGet landmarks 1).y) * e.screenH * e.sensY,
         e.defaultZ + ((if e.useIrisDepth && e.focalLengthPx.isSome then
             e.estimateDepthFromIris landmarks
           else e.defaultZ) - e.defaultZ) * e.sensZ⟩ t).1) := by
  simp only [HeadPoseEstimator.estimate]
  rw [if_neg hl]

/-- Claim C8: with a trusted iris signal (width at least the 5 px
threshold), calibrating at a known distance and immediately estimating on
the same landmarks with default depth sensitivity and a history-free
smoothing filter returns a position whose z equals the known distance
exactly (the stored focal length inverts the pinhole relation). -/
theorem C8_calibration_roundtrip (e : HeadPoseEstimator)
    (landmarks : List Vec3) (dist t : ℚ) (hsens : e.sensZ = 1)
    (hx : e.filter.filterX.tPrev = none)
    (hy : e.filter.filterY.tPrev = none)
    (hz : e.filter.filterZ.tPrev = none)
    (hlast : e.filter.lastOutput = none)
    (hiris : MIN_IRIS_PX ≤ e.irisWidthPx landmarks) :
    ∃ fpx e2, e.calibrate landmarks dist = some (fpx, e2)
      ∧ ∃ p : Vec3, (e2.estimate landmarks t).1 = some p ∧ p.z = dist := by
  have hnot : ¬ (e.irisWidthPx landmarks < MIN_IRIS_PX) := not_lt.mpr hiris
  have hpos : (0 : ℚ) < e.irisWidthPx landmarks := by
    have h5 : (0 : ℚ) < MIN_IRIS_PX := by norm_num [MIN_IRIS_PX]
    linarith
  have hl : landmarks ≠ [] := by
    intro h
    rw [h, irisWidthPx_nil] at hiris
    norm_num [MIN_IRIS_PX] at hiris
  have hIRIS : (IRIS_DIAMETER_MM : ℚ) ≠ 0 := by norm_num [IRIS_DIAMETER_MM]
  refine ⟨(e.irisWidthPx landmarks * dist) / IRIS_DIAMETER_MM,
    { e with
      focalLengthPx := some ((e.irisWidthPx landmarks * dist) / IRIS_DIAMETER_MM),
      useIrisDepth := true }, ?_, ?_⟩
  · simp only [HeadPoseEstimator.calibrate]
    rw [if_neg hnot]
  · have hdepth : ({ e with
        focalLengthPx := some ((e.irisWidthPx landmarks * dist) / IRIS_DIAMETER_MM),
        useIrisDepth := true } : HeadPoseEstimator).estimateDepthFromIris
          landmarks = dist := by
      show (if e.irisWidthPx landmarks < MIN_IRIS_PX then e.defaultZ
        else ((some ((e.irisWidthPx landmarks * dist) / IRIS_DIAMETER_MM)).getD 0
          * IRIS_DIAMETER_MM) / e.irisWidthPx landmarks) = dist
      rw [if_neg hnot]
      simp only [Option.getD_some]
      field_simp
    have hfilter : ∀ q : Vec3, (e.filter.filter q t).1 = q := by
      intro q
      rw [vecFilter_emit_first e.filter q t hlast]
      exact filteredPoint_fresh e.filter q t hx hy hz
    rw [estimate_nonempty_fst _ landmarks t hl]
    refine ⟨_, rfl, ?_⟩
    change ((e.filter.filter _ t).1).z = dist
    rw [hfilter]
    show ({ e with
        focalLengthPx := some ((e.irisWidthPx landmarks * dist) / IRIS_DIAMETER_MM),
        useIrisDepth := true } : HeadPoseEstimator).defaultZ
      + ((if ({ e with
            focalLengthPx := some ((e.irisWidthPx landmarks * dist) / IRIS_DIAMETER_MM),
            useIrisDepth := true } : HeadPoseEstimator).useIrisDepth
              && ({ e with
            focalLengthPx := some ((e.irisWidthPx landmarks * dist) / IRIS_DIAMETER_MM),
            useIrisDepth := true } : HeadPoseEstimator).focalLengthPx.isSome then
          ({ e with
            focalLengthPx := some ((e.irisWidthPx landmarks * dist) / IRIS_DIAMETER_MM),
            useIrisDepth := true } : HeadPoseEstimator).estimateDepthFromIris landmarks
        else ({ e with
            focalLengthPx := some ((e.irisWidthPx landmarks * dist) / IRIS_DIAMETER_MM),
            useIrisDepth := true } : HeadPoseEstimator).defaultZ)
        - ({ e with
            focalLengthPx := some ((e.irisWidthPx landmarks * dist) / IRIS_DIAMETER_MM),
            useIrisDepth := true } : HeadPoseEstimator).defaultZ)
        * ({ e with
            focalLengthPx := some ((e.irisWidthPx landmarks * dist) / IRIS_DIAMETER_MM),
            useIrisDepth := true } : HeadPoseEstimator).sensZ = dist
    simp only [hdepth]
    show e.defaultZ + ((if true && (some ((e.irisWidthPx landmarks * dist)
      / IRIS_DIAMETER_MM)).isSome then dist else e.defaultZ) - e.defaultZ)
      * e.sensZ = dist
    rw [hsens]
    norm_num

/-- Synthetic landmark list for the C8 witness: index 469 is offset one
full video-width from index 471, giving a left iris width of one video
width, a right of zero, and an average well above the trust threshold. -/
def sampleLandmarks : List Vec3 :=
  List.replicate 469 ⟨0, 0, 0⟩ ++ [⟨1, 0, 0⟩, ⟨0, 0, 0⟩, ⟨0, 0, 0⟩]

/-- A concrete estimator with default sensitivities and a history-free
filter, used by the C8 witness. -/
def sampleEstimatorFresh : HeadPoseEstimator :=
  ⟨344, 215, 600, 640, 480, 1, 1, 1, false, none, sampleVecFresh, false⟩

/-- Helper: the measured iris width of the sample landmarks is 320 px. -/
lemma sampleIris :
    sampleEstimatorFresh.irisWidthPx sampleLandmarks = 320 := by
  have hlen : (List.replicate 469 (⟨0, 0, 0⟩ : Vec3)).length = 469 :=
    List.length_replicate _ _
  have hlen2 : sampleLandmarks.length = 472 := by
    rw [sampleLandmarks, List.length_append, hlen]
    rfl
  have h469 : lmGet sampleLandmarks 469 = ⟨1, 0, 0⟩ := by
    rw [lmGet, sampleLandmarks, List.getD_append_right _ _ _ _ hlen.le, hlen,
      Nat.sub_self, List.getD_cons_zero]
  have h471 : lmGet sampleLandmarks 471 = ⟨0, 0, 0⟩ := by
    rw [lmGet, sampleLandmarks,
      List.getD_append_right _ _ _ _ (by rw [hlen]; norm_num), hlen]
    show List.getD _ 2 _ = _
    rw [List.getD_cons_succ, List.getD_cons_succ, List.getD_cons_zero]
  have h474 : lmGet sampleLandmarks 474 = ⟨0, 0, 0⟩ := by
    rw [lmGet, List.getD_eq_default _ _ (by rw [hlen2]; norm_num)]
  have h476 : lmGet sampleLandmarks 476 = ⟨0, 0, 0⟩ := by
    rw [lmGet, List.getD_eq_default _ _ (by rw [hlen2]; norm_num)]
  simp only [HeadPoseEstimator.irisWidthPx, h469, h471, h474, h476]
  norm_num [sampleEstimatorFresh]

/-- Witness for C8: calibrating the sample estimator on the sample
landmarks at 600 mm and estimating on the same landmarks yields z = 600. -/
theorem C8_calibration_roundtrip_witness :
    sampleEstimatorFresh.sensZ = 1
    ∧ sampleEstimatorFresh.filter.filterX.tPrev = none
    ∧ sampleEstimatorFresh.filter.filterY.tPrev = none
    ∧ sampleEstimatorFresh.filter.filterZ.tPrev = none
    ∧ sampleEstimatorFresh.filter.lastOutput = none
    ∧ MIN_IRIS_PX ≤ sampleEstimatorFresh.irisWidthPx sampleLandmarks
    ∧ ∃ fpx e2,
        sampleEstimatorFresh.calibrate sampleLandmarks 600 = some (fpx, e2)
        ∧ ∃ p : Vec3, (e2.estimate sampleLandmarks 0).1 = some p
            ∧ p.z = 600 := by
  have hi : MIN_IRIS_PX ≤ sampleEstimatorFresh.irisWidthPx sampleLandmarks := by
    rw [sampleIris]
    norm_num [MIN_IRIS_PX]
  exact ⟨rfl, rfl, rfl, rfl, rfl, hi,
    C8_calibration_roundtrip sampleEstimatorFresh sampleLandmarks 600 0 rfl
      rfl rfl rfl rfl hi⟩
